import Mathlib

/-!
Verification development for a two-service text-generation gateway:
an "enhanced" Go Bedrock service (model catalogue, availability prober,
fallback invoker) and a Node cache service (response memoization layer
in front of it).  Definitions are shallow embeddings of the source;
theorems settle the specification claims.
-/

namespace GatewaySpec

/-- JSON-like values, the shape `encoding/json` unmarshals into
(`map[string]interface{}`, `[]interface{}`, `string`, numbers, booleans).
Objects are association lists; lookup takes the first binding. -/
inductive JValue where
  | jstr (s : String)
  | jnum (q : Rat)
  | jbool (b : Bool)
  | jarr (elems : List JValue)
  | jobj (fields : List (String × JValue))
  | jnull

/-- First-match field lookup in a JSON object body. -/
def jlookup (fields : List (String × JValue)) (k : String) : Option JValue :=
  match fields with
  | [] => none
  | (k1, v) :: rest => if k1 = k then some v else jlookup rest k

/-- Mirrors Go `ModelInfo`: catalogue row with id, display name,
mutable availability flag and wire-format variant. -/
structure ModelInfo where
  id : String
  name : String
  available : Bool
  messageAPI : Bool
deriving DecidableEq, Repr

/-- Go `strings.Contains s sub`: `sub` occurs as a contiguous substring. -/
def strContains (s sub : String) : Bool :=
  decide (sub.data <:+: s.data)

/-- Go `strings.ToLower`, as a character-wise map (the catalogue and
preferences here are ASCII, where byte-wise lowering and Unicode
lowering agree). -/
def goToLower (s : String) : String := String.mk (s.data.map Char.toLower)

/-- The predicate of the preferred-model scan in `GenerateText`
(part_002 lines 175-181): available, and lowered name or id contains the
lowered preference. -/
def matchesPreferred (preferred : String) (m : ModelInfo) : Bool :=
  m.available &&
    (strContains (goToLower m.name) (goToLower preferred) ||
     strContains (goToLower m.id) (goToLower preferred))

/-- The preferred-model scan (part_002 lines 172-182): when a preference
is given, the first catalogue entry matching it is selected (the Go loop
breaks at the first hit); otherwise nothing is selected. -/
def preferredPick (models : List ModelInfo) (preferred : String) : List ModelInfo :=
  if preferred = "" then []
  else
    match models.find? (matchesPreferred preferred) with
    | some m => [m]
    | none => []

/-- The fallback-append loop (part_002 lines 184-199): walk the catalogue
in order, appending each available model whose id is not already in the
accumulated candidate list. -/
def addFallbacks (models : List ModelInfo) (acc : List ModelInfo) : List ModelInfo :=
  match models with
  | [] => acc
  | m :: rest =>
    if m.available && !(acc.any (fun e => e.id == m.id)) then
      addFallbacks rest (acc ++ [m])
    else
      addFallbacks rest acc

/-- Candidate list construction of `GenerateText` (part_002 lines 172-199):
preferred pick first, then all remaining available models in catalogue
order. -/
def buildCandidates (models : List ModelInfo) (preferred : String) : List ModelInfo :=
  addFallbacks models (preferredPick models preferred)

theorem addFallbacks_eq (models : List ModelInfo) (acc : List ModelInfo)
    (h : models.Pairwise (fun a b => a.id ≠ b.id)) :
    addFallbacks models acc =
      acc ++ models.filter (fun m => m.available && !(acc.any (fun e => e.id == m.id))) := by
  induction models generalizing acc with
  | nil => simp [addFallbacks]
  | cons m rest ih =>
    rw [List.pairwise_cons] at h
    obtain ⟨hm, hrest⟩ := h
    by_cases hc : (m.available && !(acc.any (fun e => e.id == m.id))) = true
    · rw [addFallbacks, if_pos hc, ih (acc ++ [m]) hrest]
      have hfilter : rest.filter (fun x => x.available && !((acc ++ [m]).any (fun e => e.id == x.id)))
          = rest.filter (fun x => x.available && !(acc.any (fun e => e.id == x.id))) := by
        apply List.filter_congr
        intro x hx
        have hne : (m.id == x.id) = false := beq_eq_false_iff_ne.mpr (hm x hx)
        simp [List.any_append, hne]
      rw [hfilter, List.filter_cons, if_pos hc]
      simp
    · rw [addFallbacks, if_neg hc, ih acc hrest]
      rw [List.filter_cons, if_neg hc]

/-- The fixed system instruction of the structured-message payload
(part_002 lines 213-216). -/
def systemPromptText : String :=
  "You are a helpful AI assistant with access to conversation history and uploaded files. " ++
  "When responding, consider the full context provided, including previous conversations and any file content. " ++
  "If file content is mentioned in the context, analyze and reference it appropriately in your response. " ++
  "Be conversational, helpful, and maintain continuity with previous interactions."

/-- The legacy-variant prompt wrapper (part_002 line 232). -/
def legacyWrap (prompt : String) : String :=
  "\n\nHuman: You are a helpful AI assistant with conversation memory and file analysis capabilities. Please provide thoughtful, contextual responses based on the information provided.\n\n" ++
  prompt ++ "\n\nAssistant:"

/-- Request-payload construction of `GenerateText` (part_002 lines 209-239),
selected by the descriptor's wire-format variant. -/
def buildRequestBody (messageAPI : Bool) (prompt : String) (maxTokens : Nat)
    (temperature : Rat) : JValue :=
  if messageAPI then
    .jobj [("anthropic_version", .jstr "bedrock-2023-05-31"),
           ("max_tokens", .jnum maxTokens),
           ("system", .jstr systemPromptText),
           ("messages", .jarr [.jobj [("role", .jstr "user"), ("content", .jstr prompt)]]),
           ("temperature", .jnum temperature)]
  else
    .jobj [("prompt", .jstr (legacyWrap prompt)),
           ("max_tokens_to_sample", .jnum maxTokens),
           ("temperature", .jnum temperature)]

/-- Outcome of one remote `InvokeModel` call: a transport/API error, a
successful call whose body fails `json.Unmarshal`, or a successful call
with a parsed JSON object body. -/
inductive InvokeResult where
  | err (e : String)
  | badJson (e : String)
  | ok (resp : List (String × JValue))

/-- Response-text extraction of `GenerateText` (part_002 lines 267-284):
structured variant takes `content[0].text` (a string), legacy variant
takes `completion` (a string); any failed shape assertion yields `none`. -/
def extractText (messageAPI : Bool) (resp : List (String × JValue)) : Option String :=
  if messageAPI then
    match jlookup resp "content" with
    | some (.jarr (first :: _)) =>
      match first with
      | .jobj fields =>
        match jlookup fields "text" with
        | some (.jstr t) => some t
        | _ => none
      | _ => none
    | _ => none
  else
    match jlookup resp "completion" with
    | some (.jstr c) => some c
    | _ => none

/-- One candidate trial of the fallback loop (part_002 lines 206-286):
build the payload, invoke the model, parse; failure carries the error
string recorded into `lastError`. -/
def tryModel (invoke : String → JValue → InvokeResult) (prompt : String)
    (maxTokens : Nat) (temperature : Rat) (m : ModelInfo) :
    Except String (String × String) :=
  match invoke m.id (buildRequestBody m.messageAPI prompt maxTokens temperature) with
  | .err e => .error e
  | .badJson e => .error ("error parsing response: " ++ e)
  | .ok resp =>
    match extractText m.messageAPI resp with
    | some text => .ok (text, m.name)
    | none => .error ("unexpected response format from model " ++ m.name)

/-- The fallback loop of `GenerateText` (part_002 lines 205-289): try each
candidate in order, keep the last error, stop at the first success.
Also returns the ids of the models actually invoked, in order. -/
def tryModels (invoke : String → JValue → InvokeResult) (prompt : String)
    (maxTokens : Nat) (temperature : Rat) (lastErr : String) :
    List ModelInfo → Except String (String × String) × List String
  | [] => (.error ("all available models failed. Last error: " ++ lastErr), [])
  | m :: rest =>
    match tryModel invoke prompt maxTokens temperature m with
    | .ok r => (.ok r, [m.id])
    | .error e =>
      let r := tryModels invoke prompt maxTokens temperature e rest
      (r.1, m.id :: r.2)

/-- The `maxTokens` default of `GenerateText` (part_002 lines 165-167). -/
def defaultedMaxTokens (n : Nat) : Nat := if n = 0 then 2000 else n

/-- The `temperature` default of `GenerateText` (part_002 lines 168-170). -/
def defaultedTemperature (t : Rat) : Rat := if t = 0 then (7 : Rat) / 10 else t

/-- Go `GenerateText` (part_002 lines 162-290): apply defaults, build the
candidate list, fail when it is empty, otherwise run the fallback loop.
The second component lists the ids of the models invoked remotely. -/
def generateText (models : List ModelInfo) (invoke : String → JValue → InvokeResult)
    (prompt : String) (preferred : String) (maxTokens : Nat) (temperature : Rat) :
    Except String (String × String) × List String :=
  match buildCandidates models preferred with
  | [] => (.error "no available models found", [])
  | m :: rest =>
    tryModels invoke prompt (defaultedMaxTokens maxTokens) (defaultedTemperature temperature)
      "" (m :: rest)

/-- The error string a failed trial leaves in `lastError`. -/
def errOf (r : Except String (String × String)) : String :=
  match r with
  | .error e => e
  | .ok _ => ""

/-- Mirrors Go `BedrockClient`: the catalogue with its mutable
availability flags is the only shared state. -/
structure BedrockClient where
  availableModels : List ModelInfo

/-- The probe payload of `TestModelAvailability` (part_002 lines 111-131). -/
def probeBody (messageAPI : Bool) : JValue :=
  if messageAPI then
    .jobj [("anthropic_version", .jstr "bedrock-2023-05-31"),
           ("max_tokens", .jnum 10),
           ("messages", .jarr [.jobj [("role", .jstr "user"), ("content", .jstr "Hello")]])]
  else
    .jobj [("prompt", .jstr "\n\nHuman: Hello\n\nAssistant:"),
           ("max_tokens_to_sample", .jnum 10)]

/-- Availability as observed by one probe call (part_002 lines 135-147):
available unless the call itself errors (a body that fails to parse is
still a successful call; the prober never unmarshals). -/
def probeAvailable (invoke : String → JValue → InvokeResult) (m : ModelInfo) : Bool :=
  match invoke m.id (probeBody m.messageAPI) with
  | .err _ => false
  | _ => true

/-- Go `TestModelAvailability` (part_002 lines 102-149): writes every
descriptor's `available` flag from its probe outcome. -/
def testModelAvailability (invoke : String → JValue → InvokeResult)
    (bc : BedrockClient) : BedrockClient :=
  { bc with availableModels :=
      bc.availableModels.map (fun m => { m with available := probeAvailable invoke m }) }

/-- Go `GenerateText` as a state transformer on the client: the Go method
ranges over value copies of `bc.availableModels` and contains no
assignment to the slice or its elements, so the state passes through
unchanged. -/
def generateTextS (bc : BedrockClient) (invoke : String → JValue → InvokeResult)
    (prompt : String) (preferred : String) (maxTokens : Nat) (temperature : Rat) :
    (Except String (String × String) × List String) × BedrockClient :=
  (generateText bc.availableModels invoke prompt preferred maxTokens temperature, bc)

/-- An HTTP reply as the handlers build it: a JSON object (association
list of fields) or an error status with a message body. -/
inductive HttpOut where
  | json (fields : List (String × JValue))
  | httpErr (status : Nat) (msg : String)

/-- The enhanced service's `generateHandler` (part_002 lines 316-350):
undecodable body and empty prompt are client errors, a `GenerateText`
error is one internal error, success is `{response, model_used}`.
`body = none` models a request body that fails to decode. -/
def generateHandler (models : List ModelInfo) (invoke : String → JValue → InvokeResult)
    (body : Option (String × String × Nat × Rat)) : HttpOut :=
  match body with
  | none => .httpErr 400 "Invalid request body"
  | some (prompt, preferred, maxTokens, temperature) =>
    if prompt = "" then .httpErr 400 "Prompt is required"
    else
      match (generateText models invoke prompt preferred maxTokens temperature).1 with
      | .error e => .httpErr 500 ("Error generating response: " ++ e)
      | .ok (text, modelUsed) =>
        .json [("response", .jstr text), ("model_used", .jstr modelUsed)]

/-- Modelled from the spec: the MD5 hex digest from the Node `crypto`
library is not part of this repository; the spec only relies on the
digest being a deterministic function of the prompt text, so it is
modelled as an injective stand-in. -/
def md5hex (s : String) : String := s

/-- Function `getCacheKey` of the cache service (init.sql part, lines 96-98). -/
def getCacheKey (prompt : String) : String := "prompt:" ++ md5hex prompt

/-- Modelled from the spec: the Redis backing store is an external
collaborator (§6: `get`, `setWithTTL`); entries are (key, value,
absolute-expiry) triples, newest binding first, and an expired entry is
observably absent. -/
def storeGet (entries : List (String × String × Nat)) (k : String) (now : Nat) :
    Option String :=
  match entries.find? (fun e => e.1 == k) with
  | some e => if now < e.2.2 then some e.2.1 else none
  | none => none

/-- Modelled from the spec: `setWithTTL` overwrites any prior binding of
the key; the new binding shadows older ones. -/
def storeSet (entries : List (String × String × Nat)) (k v : String) (expiry : Nat) :
    List (String × String × Nat) :=
  (k, v, expiry) :: entries

/-- The cache backing store as one call sees it: its entries plus a
reachability flag (an unreachable store makes every Redis call throw). -/
structure CacheSt where
  entries : List (String × String × Nat)
  reachable : Bool

/-- The request body the cache service's `/generate` receives. The
handler destructures only `prompt` and `useCache` (init.sql part,
line 141); the remaining generation parameters are carried to show they
are ignored. -/
structure CacheRequest where
  prompt : Option String
  useCache : Option Bool
  maxTokens : Option Nat
  temperature : Option Rat
  model : Option String

/-- Failure of the downstream `axios.post` call: an HTTP error reply
(the `error.response` branch) or a transport failure. -/
inductive BedErr where
  | http (status : Nat) (body : String)
  | network

/-- Result of one cache-service `/generate` call: the reply, the store
state after the call, and the payloads posted downstream. -/
structure CacheStep where
  out : HttpOut
  st : CacheSt
  calls : List JValue

/-- The downstream branch of the cache service's `/generate` (init.sql
part, lines 165-197): post `{prompt}` to the Bedrock service, propagate
an HTTP error's status and body (defaulting an empty body), answer 500 on
transport failure, cache a truthy response for 3600 s — a `setEx` throw
against an unreachable store lands in the same catch and answers 500. -/
def callAndStore (st : CacheSt) (now : Nat) (bedrock : JValue → Except BedErr String)
    (p : String) (uc : Bool) (key : String) : CacheStep :=
  match bedrock (.jobj [("prompt", .jstr p)]) with
  | .error (.http s b) =>
    ⟨.httpErr s (if b = "" then "Error from Bedrock service" else b), st,
     [.jobj [("prompt", .jstr p)]]⟩
  | .error .network =>
    ⟨.httpErr 500 "Failed to generate response", st, [.jobj [("prompt", .jstr p)]]⟩
  | .ok ai =>
    if uc && !(ai == "") then
      if st.reachable then
        ⟨.json [("response", .jstr ai), ("cached", .jbool false), ("cacheKey", .jstr key)],
         { st with entries := storeSet st.entries key ai (now + 3600) },
         [.jobj [("prompt", .jstr p)]]⟩
      else
        ⟨.httpErr 500 "Failed to generate response", st, [.jobj [("prompt", .jstr p)]]⟩
    else
      ⟨.json [("response", .jstr ai), ("cached", .jbool false), ("cacheKey", .jstr key)],
       st, [.jobj [("prompt", .jstr p)]]⟩

/-- The cache service's `/generate` (init.sql part, lines 140-198):
reject a missing or empty prompt (JS falsiness), default `useCache` to
true, look the key up when caching is on — a hit (truthy value) is
answered from the cache without any downstream call, a `get` throw
against an unreachable store lands in the catch and answers 500 — and
otherwise fall through to the downstream call. -/
def appGenerate (st : CacheSt) (now : Nat) (bedrock : JValue → Except BedErr String)
    (req : CacheRequest) : CacheStep :=
  match req.prompt with
  | none => ⟨.httpErr 400 "Prompt is required", st, []⟩
  | some p =>
    if p = "" then ⟨.httpErr 400 "Prompt is required", st, []⟩
    else
      if req.useCache.getD true then
        if st.reachable then
          match storeGet st.entries (getCacheKey p) now with
          | some v =>
            if v == "" then
              callAndStore st now bedrock p (req.useCache.getD true) (getCacheKey p)
            else ⟨.json [("response", .jstr v), ("cached", .jbool true),
                         ("cacheKey", .jstr (getCacheKey p))], st, []⟩
          | none => callAndStore st now bedrock p (req.useCache.getD true) (getCacheKey p)
        else ⟨.httpErr 500 "Failed to generate response", st, []⟩
      else callAndStore st now bedrock p (req.useCache.getD true) (getCacheKey p)

/-- Startup outcome of a service process: running (with or without a
startup warning, with or without a usable client handle) or terminated. -/
inductive StartupOutcome where
  | running (warned : Bool) (client : Option Unit)
  | crashed (msg : String)

/-- The enhanced service's `main` (part_002 lines 379-390): a failed
client initialization calls `log.Fatalf`, terminating the process. -/
def enhancedMainStartup (init : Except String Unit) : StartupOutcome :=
  match init with
  | .ok c => .running false (some c)
  | .error e => .crashed ("Failed to initialize Bedrock client: " ++ e)

/-- The simple service's `main` (bedrock-service/main.go lines 178-184):
a failed client initialization is logged as a warning and the process
keeps serving, holding a nil client. -/
def simpleMainStartup (init : Except String Unit) : StartupOutcome :=
  match init with
  | .ok c => .running false (some c)
  | .error _ => .running true none

/-- Outcome of one request against the simple service's generate
handler: a JSON reply, an HTTP error, or an aborted request (the handler
goroutine panics on a nil-pointer dereference and `net/http` drops the
connection). -/
inductive SimpleHandlerOutcome where
  | json (fields : List (String × JValue))
  | httpErr (status : Nat) (msg : String)
  | panicked

/-- The simple service's `generateHandler` (bedrock-service/main.go
lines 137-169): with a nil client, `bc.GenerateText` dereferences
`bc.client` and panics; otherwise a generation error is one 500 and
success is `{response}`. -/
def simpleGenerateHandler (client : Option Unit) (gen : String → Except String String)
    (body : Option String) : SimpleHandlerOutcome :=
  match body with
  | none => .httpErr 400 "Invalid request body"
  | some p =>
    if p = "" then .httpErr 400 "Prompt is required"
    else
      match client with
      | none => .panicked
      | some _ =>
        match gen p with
        | .error _ => .httpErr 500 "Error generating response"
        | .ok t => .json [("response", .jstr t)]

/-! Helper lemmas on the fallback loop. -/

theorem tryModels_error_iff (invoke : String → JValue → InvokeResult) (prompt : String)
    (mt : Nat) (tp : Rat) (cands : List ModelInfo) :
    ∀ le, (∃ e, (tryModels invoke prompt mt tp le cands).1 = .error e) ↔
      (∀ m ∈ cands, ∃ e2, tryModel invoke prompt mt tp m = .error e2) := by
  induction cands with
  | nil => intro le; simp [tryModels]
  | cons m rest ih =>
    intro le
    cases htm : tryModel invoke prompt mt tp m with
    | ok r =>
      simp only [tryModels, htm]
      constructor
      · rintro ⟨e, he⟩; cases he
      · intro hall
        obtain ⟨e2, he2⟩ := hall m (List.mem_cons_self m rest)
        rw [htm] at he2
        cases he2
    | error e =>
      simp only [tryModels, htm]
      constructor
      · rintro ⟨e2, he2⟩
        intro x hx
        rcases List.mem_cons.mp hx with hxm | hxr
        · exact ⟨e, hxm ▸ htm⟩
        · exact ((ih e).mp ⟨e2, he2⟩) x hxr
      · intro hall
        exact (ih e).mpr (fun x hx => hall x (List.mem_cons_of_mem m hx))

theorem tryModels_all_fail (invoke : String → JValue → InvokeResult) (prompt : String)
    (mt : Nat) (tp : Rat) (cands : List ModelInfo) :
    ∀ le (h : cands ≠ []),
      (∀ m ∈ cands, ∃ e2, tryModel invoke prompt mt tp m = .error e2) →
      (tryModels invoke prompt mt tp le cands).1 =
        .error ("all available models failed. Last error: " ++
                errOf (tryModel invoke prompt mt tp (cands.getLast h))) := by
  induction cands with
  | nil => intro le h; exact absurd rfl h
  | cons m rest ih =>
    intro le h hall
    cases rest with
    | nil =>
      obtain ⟨e, he⟩ := hall m (List.mem_cons_self m [])
      simp [tryModels, he, errOf, List.getLast]
    | cons m2 rs =>
      obtain ⟨e, he⟩ := hall m (List.mem_cons_self m (m2 :: rs))
      have hne : (m2 :: rs) ≠ [] := List.cons_ne_nil m2 rs
      rw [List.getLast_cons hne]
      simp only [tryModels, he]
      exact ih e hne (fun x hx => hall x (List.mem_cons_of_mem m hx))

theorem tryModels_ok (invoke : String → JValue → InvokeResult) (prompt : String)
    (mt : Nat) (tp : Rat) (cands : List ModelInfo) :
    ∀ le t mu, (tryModels invoke prompt mt tp le cands).1 = .ok (t, mu) →
      ∃ m ∈ cands, tryModel invoke prompt mt tp m = .ok (t, mu) := by
  induction cands with
  | nil => intro le t mu h; cases h
  | cons m rest ih =>
    intro le t mu h
    cases htm : tryModel invoke prompt mt tp m with
    | ok r =>
      rw [tryModels, htm] at h
      cases h
      exact ⟨m, List.mem_cons_self m rest, htm⟩
    | error e =>
      rw [tryModels, htm] at h
      obtain ⟨x, hx, hok⟩ := ih e t mu h
      exact ⟨x, List.mem_cons_of_mem m hx, hok⟩

/-! Concrete fixtures used by examples, witnesses and counterexamples. -/

/-- Unavailable structured-message descriptor (the spec's scenario model A). -/
def modelA : ModelInfo := ⟨"model-a", "Alpha", false, true⟩

/-- Available structured-message descriptor (the spec's scenario model B). -/
def modelB : ModelInfo := ⟨"model-b", "Beta", true, true⟩

/-- Available legacy descriptor (the spec's scenario model C). -/
def modelC : ModelInfo := ⟨"model-c", "Gamma", true, false⟩

/-- The spec's three-descriptor scenario catalogue. -/
def catalogueABC : List ModelInfo := [modelA, modelB, modelC]

/-- An invocation oracle on which every remote call fails with a
transport error. -/
def invokeAllFail : String → JValue → InvokeResult := fun _ _ => .err "boom"

/-- Claim C1: with a non-empty preference, the candidate list starts
with the first available catalogue entry whose id or display name
contains the preference case-insensitively, followed by the remaining
available entries in catalogue order with the selected one skipped;
without a preference (or with an unmatched one) it is exactly the
available entries in catalogue order.  On the spec's scenario catalogue
`[A(unavailable), B(available), C(available)]` this gives `[B, C]` with
no preference and `[C, B]` with a preference matching C.  Catalogue ids
are pairwise distinct (spec §3 invariant). -/
theorem C1_candidate_order (models : List ModelInfo) (preferred : String)
    (huniq : models.Pairwise (fun a b => a.id ≠ b.id)) :
    (preferred = "" →
      buildCandidates models preferred = models.filter (fun m => m.available)) ∧
    (∀ m, preferred ≠ "" → models.find? (matchesPreferred preferred) = some m →
      buildCandidates models preferred =
        m :: models.filter (fun x => x.available && !(m.id == x.id))) ∧
    (preferred ≠ "" → models.find? (matchesPreferred preferred) = none →
      buildCandidates models preferred = models.filter (fun m => m.available)) ∧
    buildCandidates catalogueABC "" = [modelB, modelC] ∧
    buildCandidates catalogueABC "gam" = [modelC, modelB] := by
  refine ⟨?_, ?_, ?_, by decide, by decide⟩
  · intro hp
    rw [buildCandidates, preferredPick, if_pos hp, addFallbacks_eq models [] huniq]
    simp
  · intro m hpref hfind
    rw [buildCandidates, preferredPick, if_neg hpref, hfind,
        addFallbacks_eq models [m] huniq]
    simp [List.any_cons]
  · intro hpref hfind
    rw [buildCandidates, preferredPick, if_neg hpref, hfind,
        addFallbacks_eq models [] huniq]
    simp

/-- Witness for C1: instantiating the preferred-match clause on the
scenario catalogue with preference "gam", which matches only model C. -/
theorem C1_candidate_order_witness :
    buildCandidates catalogueABC "gam" =
      modelC :: catalogueABC.filter (fun x => x.available && !(modelC.id == x.id)) :=
  (C1_candidate_order catalogueABC "gam" (by decide)).2.1 modelC (by decide) (by decide)

/-- Claim C4: the invoker returns a terminal failure exactly when the
candidate list is empty or every candidate fails; an empty list yields
the "no available models found" error with no remote call; when all
candidates fail, the failure carries the last candidate's error; and a
success is always the result of some candidate actually succeeding
(exhaustion is never masked as an empty success). -/
theorem C4_terminal_failure (models : List ModelInfo)
    (invoke : String → JValue → InvokeResult) (prompt preferred : String)
    (maxT : Nat) (temp : Rat) :
    (buildCandidates models preferred = [] →
      generateText models invoke prompt preferred maxT temp =
        (.error "no available models found", [])) ∧
    ((∃ e, (generateText models invoke prompt preferred maxT temp).1 = .error e) ↔
      (buildCandidates models preferred = [] ∨
       ∀ m ∈ buildCandidates models preferred,
         ∃ e2, tryModel invoke prompt (defaultedMaxTokens maxT)
                 (defaultedTemperature temp) m = .error e2)) ∧
    (∀ mlast, (buildCandidates models preferred).getLast? = some mlast →
      (∀ m ∈ buildCandidates models preferred,
        ∃ e2, tryModel invoke prompt (defaultedMaxTokens maxT)
                (defaultedTemperature temp) m = .error e2) →
      (generateText models invoke prompt preferred maxT temp).1 =
        .error ("all available models failed. Last error: " ++
          errOf (tryModel invoke prompt (defaultedMaxTokens maxT)
            (defaultedTemperature temp) mlast))) ∧
    (∀ t mu, (generateText models invoke prompt preferred maxT temp).1 = .ok (t, mu) →
      ∃ m ∈ buildCandidates models preferred,
        tryModel invoke prompt (defaultedMaxTokens maxT)
          (defaultedTemperature temp) m = .ok (t, mu)) := by
  refine ⟨?_, ?_, ?_, ?_⟩
  · intro hc
    rw [generateText, hc]
  · cases hc : buildCandidates models preferred with
    | nil =>
      rw [generateText, hc]
      exact ⟨fun _ => Or.inl rfl, fun _ => ⟨"no available models found", rfl⟩⟩
    | cons m rest =>
      rw [generateText, hc]
      constructor
      · intro he
        exact Or.inr ((tryModels_error_iff invoke prompt (defaultedMaxTokens maxT)
          (defaultedTemperature temp) (m :: rest) "").mp he)
      · intro hor
        rcases hor with hnil | hall
        · cases hnil
        · exact (tryModels_error_iff invoke prompt (defaultedMaxTokens maxT)
            (defaultedTemperature temp) (m :: rest) "").mpr hall
  · intro mlast hlast hall
    cases hc : buildCandidates models preferred with
    | nil => rw [hc] at hlast; cases hlast
    | cons m rest =>
      rw [hc] at hlast
      rw [generateText, hc]
      have h2 : (m :: rest : List ModelInfo) ≠ [] := List.cons_ne_nil m rest
      have hall2 : ∀ x ∈ (m :: rest : List ModelInfo),
          ∃ e2, tryModel invoke prompt (defaultedMaxTokens maxT)
            (defaultedTemperature temp) x = .error e2 := hc ▸ hall
      have hres := tryModels_all_fail invoke prompt (defaultedMaxTokens maxT)
        (defaultedTemperature temp) (m :: rest) "" h2 hall2
      rw [hres]
      have hml : (m :: rest).getLast h2 = mlast := by
        rw [List.getLast?_eq_getLast (m :: rest) h2] at hlast
        exact Option.some.inj hlast
      rw [hml]
  · intro t mu hok
    cases hc : buildCandidates models preferred with
    | nil =>
      rw [generateText, hc] at hok
      cases hok
    | cons m rest =>
      rw [generateText, hc] at hok
      exact tryModels_ok invoke prompt (defaultedMaxTokens maxT)
        (defaultedTemperature temp) (m :: rest) "" t mu hok

/-- Witness for C4: on a catalogue whose only descriptor is unavailable
the invoker reports "no available models found" without any remote
call, discharging the empty-candidate hypothesis concretely. -/
theorem C4_terminal_failure_witness :
    generateText [modelA] invokeAllFail "hi" "" 5 1 =
      (.error "no available models found", []) :=
  (C4_terminal_failure [modelA] invokeAllFail "hi" "" 5 1).1 (by decide)

/-- Claim C7: a failing candidate makes the invoker record the error as
the new `lastError` and advance to the next candidate; the invoker never
mutates any descriptor's `available` flag (the catalogue after a
generation call equals the catalogue before it), and the flags are
written only by the availability prober, which sets each one to its
probe outcome. -/
theorem C7_frame (bc : BedrockClient) (invoke : String → JValue → InvokeResult)
    (prompt preferred : String) (maxT : Nat) (temp : Rat) :
    (generateTextS bc invoke prompt preferred maxT temp).2 = bc ∧
    (testModelAvailability invoke bc).availableModels =
      bc.availableModels.map (fun m => { m with available := probeAvailable invoke m }) ∧
    (∀ (m : ModelInfo) (rest : List ModelInfo) (le e : String),
      tryModel invoke prompt (defaultedMaxTokens maxT) (defaultedTemperature temp) m =
        .error e →
      tryModels invoke prompt (defaultedMaxTokens maxT) (defaultedTemperature temp) le
          (m :: rest) =
        ((tryModels invoke prompt (defaultedMaxTokens maxT) (defaultedTemperature temp)
            e rest).1,
         m.id :: (tryModels invoke prompt (defaultedMaxTokens maxT)
            (defaultedTemperature temp) e rest).2)) := by
  refine ⟨rfl, rfl, ?_⟩
  intro m rest le e htm
  rw [tryModels, htm]

/-- Witness for C7: a concrete generation call over the scenario
catalogue leaves the catalogue untouched, and a concrete transport
failure on model B advances the loop with "boom" recorded. -/
theorem C7_frame_witness :
    (generateTextS ⟨catalogueABC⟩ invokeAllFail "hi" "" 5 1).2 = ⟨catalogueABC⟩ ∧
    tryModels invokeAllFail "hi" (defaultedMaxTokens 5) (defaultedTemperature 1) ""
        [modelB] =
      ((tryModels invokeAllFail "hi" (defaultedMaxTokens 5) (defaultedTemperature 1)
          "boom" []).1,
       modelB.id :: (tryModels invokeAllFail "hi" (defaultedMaxTokens 5)
          (defaultedTemperature 1) "boom" []).2) := by
  have h := C7_frame ⟨catalogueABC⟩ invokeAllFail "hi" "" 5 1
  exact ⟨h.1, h.2.2 modelB [] "" "boom" rfl⟩

/-- The structured-message response whose first content block carries a
blank text field. -/
def blankResp : List (String × JValue) := [("content", .jarr [.jobj [("text", .jstr "")]])]

/-- An invocation oracle that always answers with the blank-text
structured response. -/
def invokeBlank : String → JValue → InvokeResult := fun _ _ => .ok blankResp

/-- Counterexample to claim C8: the claim says a blank text field in a
structured-message response is treated as a format-parse failure, but on
the response `{"content": [{"text": ""}]}` the invoker accepts model B's
reply and returns an empty-text success instead of trying the next
candidate. -/
theorem C8_counterexample :
    tryModel invokeBlank "hi" 100 1 modelB = .ok ("", "Beta") ∧
    extractText true blankResp = some "" := ⟨rfl, rfl⟩

/-- Claim C8 (amended): for a structured-message descriptor the invoker
returns the text of the first content block whenever the `content` field
is an array whose first element is an object with a string `text` field
— a missing or ill-typed field is a format-parse failure, but a blank
text is accepted and returned as an empty success; for a legacy
descriptor the `completion` string field is returned and its absence (or
a non-string value) is a format-parse failure. -/
theorem C8_parse_rules (resp : List (String × JValue)) (t c : String) :
    (extractText true resp = some t ↔
      ∃ fields rest, jlookup resp "content" = some (.jarr (.jobj fields :: rest)) ∧
        jlookup fields "text" = some (.jstr t)) ∧
    (extractText false resp = some c ↔
      jlookup resp "completion" = some (.jstr c)) ∧
    extractText true blankResp = some "" := by
  refine ⟨?_, ?_, rfl⟩
  · rw [extractText, if_pos rfl]
    cases hc : jlookup resp "content" with
    | none => simp
    | some v =>
      cases v with
      | jarr elems =>
        cases elems with
        | nil => simp
        | cons first rest =>
          cases first with
          | jobj fields =>
            cases ht : jlookup fields "text" with
            | none => simp [ht]
            | some w =>
              cases w <;> simp [ht]
          | jstr s => simp
          | jnum q => simp
          | jbool b => simp
          | jarr l => simp
          | jnull => simp
      | jstr s => simp
      | jnum q => simp
      | jbool b => simp
      | jobj fs => simp
      | jnull => simp
  · rw [extractText]
    simp only [Bool.false_eq_true, if_false]
    cases hc : jlookup resp "completion" with
    | none => simp
    | some v => cases v <;> simp

/-- A downstream Bedrock service that always answers "hello". -/
def bedrockOkHello : JValue → Except BedErr String := fun _ => .ok "hello"

/-- A downstream Bedrock service that always answers with an empty
response text (the enhanced service produces this when the winning
model's first content block carries a blank text). -/
def bedrockEmpty : JValue → Except BedErr String := fun _ => .ok ""

/-- A request with prompt "hi" and every optional field absent. -/
def reqHi : CacheRequest := ⟨some "hi", none, none, none, none⟩

/-- An empty, reachable backing store. -/
def emptySt : CacheSt := ⟨[], true⟩

/-- An unreachable backing store. -/
def unreachableSt : CacheSt := ⟨[], false⟩

/-- A reachable store already holding an entry for prompt "hi". -/
def hitSt : CacheSt := ⟨[("prompt:hi", "hello", 100)], true⟩

/-- A generation function that always fails. -/
def genFail : String → Except String String := fun _ => .error "down"

/-- Claim C3: the claim says an unreachable backing store is treated as
a miss and the request still reaches the invoker with no error
surfaced; the code instead wraps the Redis lookup, the downstream call
and the write in one try/catch, so a throwing `get` answers HTTP 500
"Failed to generate response" and the downstream service is never
called (`calls = []`).  This theorem evaluates the handler at that
failing input. -/
theorem C3_unreachable_store_fails_request :
    appGenerate unreachableSt 0 bedrockOkHello reqHi =
      ⟨.httpErr 500 "Failed to generate response", unreachableSt, []⟩ := rfl

/-- Counterexample to claim C5: a generation served from the cache
replies `{response, cached, cacheKey}` — the `model_used` field the
claim promises on every path is absent from the cache service's reply. -/
theorem C5_counterexample :
    (appGenerate hitSt 0 bedrockOkHello reqHi).out =
      .json [("response", .jstr "hello"), ("cached", .jbool true),
             ("cacheKey", .jstr "prompt:hi")] ∧
    jlookup [("response", JValue.jstr "hello"), ("cached", JValue.jbool true),
             ("cacheKey", JValue.jstr "prompt:hi")] "model_used" = none :=
  ⟨rfl, rfl⟩

/-- Claim C6: a value stored with TTL `T` is never returned once `T` has
elapsed since the write, and a write to the same key before expiry
overwrites the value (whatever the prior value and expiry were) and
resets the expiry to `now + T`. -/
theorem C6_ttl_expiry :
    (∀ (entries : List (String × String × Nat)) (k v : String) (t0 T t : Nat),
      t0 + T ≤ t → storeGet (storeSet entries k v (t0 + T)) k t = none) ∧
    (∀ (entries : List (String × String × Nat)) (k v1 v2 : String) (e1 now T t2 : Nat),
      storeGet (storeSet (storeSet entries k v1 e1) k v2 (now + T)) k t2 =
        if t2 < now + T then some v2 else none) := by
  constructor
  · intro entries k v t0 T t hle
    rw [storeGet, storeSet, List.find?_cons_of_pos _ (by simp)]
    show (if t < t0 + T then some v else none) = none
    exact if_neg (by omega)
  · intro entries k v1 v2 e1 now T t2
    rw [storeGet, storeSet, storeSet, List.find?_cons_of_pos _ (by simp)]

/-- Witness for C6: a value written at time 5 with TTL 3600 is absent at
time 4000. -/
theorem C6_ttl_expiry_witness :
    storeGet (storeSet [] "k" "v" (5 + 3600)) "k" 4000 = none :=
  C6_ttl_expiry.1 [] "k" "v" 5 3600 4000 (by omega)

/-- Counterexample to claim C9: the claim says an unresolvable
configuration at startup yields a warning and no crash, but the enhanced
service's `main` calls `log.Fatalf` on a failed client initialization,
terminating the process. -/
theorem C9_counterexample :
    enhancedMainStartup (.error "no credentials") =
      .crashed "Failed to initialize Bedrock client: no credentials" := rfl

/-- Claim C9 (amended): on a failed client initialization the enhanced
service terminates via `log.Fatalf`, while the simple service logs a
warning and keeps serving with a nil client — and a generation attempt
against that nil client panics (the request is aborted) instead of
returning a "provider unavailable" result. -/
theorem C9_startup (e : String) (gen : String → Except String String) (p : String)
    (hp : p ≠ "") :
    enhancedMainStartup (.error e) =
      .crashed ("Failed to initialize Bedrock client: " ++ e) ∧
    simpleMainStartup (.error e) = .running true none ∧
    simpleGenerateHandler none gen (some p) = .panicked := by
  refine ⟨rfl, rfl, ?_⟩
  simp only [simpleGenerateHandler]
  rw [if_neg hp]

/-- Witness for C9: concrete startup failure and a concrete aborted
generation attempt on the simple service's nil client. -/
theorem C9_startup_witness :
    enhancedMainStartup (.error "x") =
      .crashed ("Failed to initialize Bedrock client: " ++ "x") ∧
    simpleGenerateHandler none genFail (some "hi") = .panicked := by
  have h := C9_startup "x" genFail "hi" (by decide)
  exact ⟨h.1, h.2.2⟩

theorem callAndStore_calls (st : CacheSt) (now : Nat)
    (bedrock : JValue → Except BedErr String) (p : String) (uc : Bool) (key : String) :
    (callAndStore st now bedrock p uc key).calls = [.jobj [("prompt", .jstr p)]] := by
  rw [callAndStore]
  cases hb : bedrock (.jobj [("prompt", .jstr p)]) with
  | error err => cases err <;> rfl
  | ok ai =>
    by_cases h1 : (uc && !(ai == "")) = true
    · by_cases h2 : st.reachable = true
      · simp [h1, h2]
      · simp [h1, h2]
    · simp [h1]

/-- Claim C10: the cache service's generate endpoint reads only the
`prompt` and `useCache` fields of the request: two requests agreeing on
those two fields produce the same reply, the same store state and the
same downstream traffic, and every downstream call posts exactly the
prompt-only payload `{prompt}`. -/
theorem C10_param_independence (st : CacheSt) (now : Nat)
    (bedrock : JValue → Except BedErr String) (r1 r2 : CacheRequest)
    (hp : r1.prompt = r2.prompt) (hu : r1.useCache = r2.useCache) :
    appGenerate st now bedrock r1 = appGenerate st now bedrock r2 ∧
    ∀ c ∈ (appGenerate st now bedrock r1).calls,
      c = .jobj [("prompt", .jstr (r1.prompt.getD ""))] := by
  constructor
  · rw [appGenerate, appGenerate, hp, hu]
  · intro c hc
    rw [appGenerate] at hc
    split at hc
    · simp at hc
    · rename_i p hp1
      rw [hp1, Option.getD_some]
      split at hc
      · simp at hc
      · split at hc
        · split at hc
          · split at hc
            · split at hc
              · rw [callAndStore_calls] at hc
                simpa using hc
              · simp at hc
            · rw [callAndStore_calls] at hc
              simpa using hc
          · simp at hc
        · rw [callAndStore_calls] at hc
          simpa using hc

/-- Witness for C10: two concrete requests sharing prompt and useCache
but differing in `max_tokens`, `temperature` and `model` take the same
step. -/
theorem C10_param_independence_witness :
    appGenerate emptySt 0 bedrockOkHello reqHi =
      appGenerate emptySt 0 bedrockOkHello ⟨some "hi", none, some 50, some 1, some "claude"⟩ :=
  (C10_param_independence emptySt 0 bedrockOkHello reqHi
    ⟨some "hi", none, some 50, some 1, some "claude"⟩ rfl rfl).1

theorem callAndStore_out_shapes (st : CacheSt) (now : Nat)
    (bedrock : JValue → Except BedErr String) (p : String) (uc : Bool) (key : String) :
    (∃ s m, (callAndStore st now bedrock p uc key).out = .httpErr s m) ∨
    (∃ r c k, (callAndStore st now bedrock p uc key).out =
      .json [("response", .jstr r), ("cached", .jbool c), ("cacheKey", .jstr k)]) := by
  rw [callAndStore]
  cases hb : bedrock (.jobj [("prompt", .jstr p)]) with
  | error err =>
    cases err with
    | http s b => exact Or.inl ⟨s, _, rfl⟩
    | network => exact Or.inl ⟨500, _, rfl⟩
  | ok ai =>
    by_cases h1 : (uc && !(ai == "")) = true
    · by_cases h2 : st.reachable = true
      · refine Or.inr ⟨ai, false, key, ?_⟩
        simp [h1, h2]
      · refine Or.inl ⟨500, "Failed to generate response", ?_⟩
        simp [h1, h2]
    · refine Or.inr ⟨ai, false, key, ?_⟩
      simp [h1]

/-- Claim C5 (amended): a caller of the enhanced Bedrock service's
generate endpoint always receives either a single HTTP error or a JSON
success carrying exactly `response` and `model_used`; a caller routed
through the cache service always receives either a single HTTP error or
a JSON success carrying exactly `response`, `cached` and `cacheKey` —
with no `model_used` field on any path, cached or not.  Per-candidate
failures are never part of a success reply. -/
theorem C5_terminal_shapes (models : List ModelInfo)
    (invoke : String → JValue → InvokeResult)
    (body : Option (String × String × Nat × Rat))
    (st : CacheSt) (now : Nat) (bedrock : JValue → Except BedErr String)
    (req : CacheRequest) :
    ((∃ s m, generateHandler models invoke body = .httpErr s m) ∨
     (∃ t mu, generateHandler models invoke body =
        .json [("response", .jstr t), ("model_used", .jstr mu)])) ∧
    ((∃ s m, (appGenerate st now bedrock req).out = .httpErr s m) ∨
     (∃ r c k, (appGenerate st now bedrock req).out =
        .json [("response", .jstr r), ("cached", .jbool c), ("cacheKey", .jstr k)])) := by
  constructor
  · cases body with
    | none => exact Or.inl ⟨400, "Invalid request body", rfl⟩
    | some b =>
      obtain ⟨p, pref, mt, tp⟩ := b
      by_cases hpe : p = ""
      · exact Or.inl ⟨400, "Prompt is required", by simp [generateHandler, hpe]⟩
      · cases hg : (generateText models invoke p pref mt tp).1 with
        | error e =>
          exact Or.inl ⟨500, "Error generating response: " ++ e,
            by simp [generateHandler, hpe, hg]⟩
        | ok r =>
          obtain ⟨t, mu⟩ := r
          exact Or.inr ⟨t, mu, by simp [generateHandler, hpe, hg]⟩
  · cases hp1 : req.prompt with
    | none => exact Or.inl ⟨400, "Prompt is required", by simp [appGenerate, hp1]⟩
    | some p =>
      by_cases hpe : p = ""
      · exact Or.inl ⟨400, "Prompt is required", by simp [appGenerate, hp1, hpe]⟩
      · by_cases huc : req.useCache.getD true = true
        · by_cases hre : st.reachable = true
          · cases hg : storeGet st.entries (getCacheKey p) now with
            | some v =>
              by_cases hv : (v == "") = true
              · have heq : appGenerate st now bedrock req =
                    callAndStore st now bedrock p (req.useCache.getD true) (getCacheKey p) := by
                  rw [appGenerate]
                  simp [hp1, hpe, huc, hre, hg, hv]
                rw [heq]
                exact callAndStore_out_shapes st now bedrock p (req.useCache.getD true)
                  (getCacheKey p)
              · refine Or.inr ⟨v, true, getCacheKey p, ?_⟩
                rw [appGenerate]
                simp [hp1, hpe, huc, hre, hg, hv]
            | none =>
              have heq : appGenerate st now bedrock req =
                  callAndStore st now bedrock p (req.useCache.getD true) (getCacheKey p) := by
                rw [appGenerate]
                simp [hp1, hpe, huc, hre, hg]
              rw [heq]
              exact callAndStore_out_shapes st now bedrock p (req.useCache.getD true)
                (getCacheKey p)
          · refine Or.inl ⟨500, "Failed to generate response", ?_⟩
            rw [appGenerate]
            simp [hp1, hpe, huc, hre]
        · have heq : appGenerate st now bedrock req =
              callAndStore st now bedrock p (req.useCache.getD true) (getCacheKey p) := by
            rw [appGenerate]
            simp [hp1, hpe, huc]
          rw [heq]
          exact callAndStore_out_shapes st now bedrock p (req.useCache.getD true)
            (getCacheKey p)

theorem callAndStore_ok_inv (st : CacheSt) (now : Nat)
    (bedrock : JValue → Except BedErr String) (p : String)
    (key r : String) (st1 : CacheSt) (calls1 : List JValue)
    (hreach : st.reachable = true) (hr : r ≠ "")
    (h : callAndStore st now bedrock p true (getCacheKey p) =
      ⟨.json [("response", .jstr r), ("cached", .jbool false), ("cacheKey", .jstr key)],
       st1, calls1⟩) :
    key = getCacheKey p ∧
    st1 = ⟨(getCacheKey p, r, now + 3600) :: st.entries, true⟩ := by
  rw [callAndStore] at h
  split at h
  · simp at h
  · simp at h
  · rename_i ai hb
    by_cases hai : (ai == "") = true
    · simp only [hai, Bool.not_true, Bool.and_false, Bool.false_eq_true, if_false] at h
      have hair : ai = r := by
        simp [CacheStep.mk.injEq] at h
        exact h.1.1
      have : ai = "" := by simpa using hai
      rw [hair] at this
      exact absurd this hr
    · simp only [hai, Bool.not_false, Bool.and_true, if_true, hreach] at h
      simp [CacheStep.mk.injEq, storeSet] at h
      obtain ⟨⟨hair, hkey⟩, hst, _⟩ := h
      subst hair
      exact ⟨hkey.symm, hst.symm⟩

/-- Claim C2 (amended): for every non-empty prompt, if the first call
with caching enabled (store reachable) was a cache miss that produced a
non-empty response text `r`, then a second call with the same prompt
within the one-hour TTL is answered from the entry stored by the first
call: it returns the same text `r`, marked cached, and performs no
downstream call.  The cache key is a deterministic digest of the prompt
text alone, so the second lookup finds the first call's entry. -/
theorem C2_second_call_cached (st : CacheSt) (t1 t2 : Nat)
    (bedrock : JValue → Except BedErr String) (req : CacheRequest)
    (p r key : String) (st1 : CacheSt) (calls1 : List JValue)
    (hreach : st.reachable = true)
    (hp : req.prompt = some p) (hpne : p ≠ "")
    (huc : req.useCache.getD true = true)
    (h1 : appGenerate st t1 bedrock req =
      ⟨.json [("response", .jstr r), ("cached", .jbool false), ("cacheKey", .jstr key)],
       st1, calls1⟩)
    (hr : r ≠ "")
    (ht : t2 < t1 + 3600) :
    appGenerate st1 t2 bedrock req =
      ⟨.json [("response", .jstr r), ("cached", .jbool true), ("cacheKey", .jstr key)],
       st1, []⟩ := by
  simp only [appGenerate, hp] at h1
  rw [if_neg hpne, if_pos huc, if_pos hreach, huc] at h1
  have hinv : key = getCacheKey p ∧
      st1 = ⟨(getCacheKey p, r, t1 + 3600) :: st.entries, true⟩ := by
    split at h1
    · rename_i v hg
      split at h1
      · exact callAndStore_ok_inv st t1 bedrock p key r st1 calls1 hreach hr h1
      · simp [CacheStep.mk.injEq] at h1
    · exact callAndStore_ok_inv st t1 bedrock p key r st1 calls1 hreach hr h1
  obtain ⟨hkey, hst1⟩ := hinv
  subst hkey
  subst hst1
  have hsg : storeGet ((getCacheKey p, r, t1 + 3600) :: st.entries) (getCacheKey p) t2 =
      some r := by
    rw [storeGet, List.find?_cons_of_pos _ (by simp)]
    show (if t2 < t1 + 3600 then some r else none) = some r
    exact if_pos ht
  have hrb : (r == "") = false := beq_eq_false_iff_ne.mpr hr
  simp [appGenerate, hp, hpne, huc, hsg, hrb]

/-- Witness for C2 (amended): a concrete first call on an empty
reachable store misses, invokes the downstream service and stores
"hello"; the concrete second call 10 seconds later is served from the
cache with no downstream call. -/
theorem C2_second_call_cached_witness :
    appGenerate ⟨[("prompt:hi", "hello", 3600)], true⟩ 10 bedrockOkHello reqHi =
      ⟨.json [("response", .jstr "hello"), ("cached", .jbool true),
              ("cacheKey", .jstr "prompt:hi")],
       ⟨[("prompt:hi", "hello", 3600)], true⟩, []⟩ := by
  have h := C2_second_call_cached emptySt 0 10 bedrockOkHello reqHi "hi" "hello"
    "prompt:hi" ⟨[("prompt:hi", "hello", 3600)], true⟩
    [JValue.jobj [("prompt", JValue.jstr "hi")]]
    rfl rfl (by decide) rfl rfl (by decide) (by omega)
  exact h

/-- Counterexample to claim C2: when the downstream service answers with
an empty response text (which the enhanced Bedrock service produces for
a blank first content block), the first call succeeds but stores
nothing, so the second call misses again and does invoke the remote
service — both calls return the same (empty) text, yet the second call
is not a cache hit. -/
theorem C2_counterexample :
    appGenerate emptySt 0 bedrockEmpty reqHi =
      ⟨.json [("response", .jstr ""), ("cached", .jbool false),
              ("cacheKey", .jstr "prompt:hi")],
       emptySt, [.jobj [("prompt", .jstr "hi")]]⟩ ∧
    (appGenerate emptySt 10 bedrockEmpty reqHi).calls =
      [.jobj [("prompt", .jstr "hi")]] := ⟨rfl, rfl⟩

end GatewaySpec
